import Mathlib

set_option linter.unusedVariables false

/-!
# Verification of the xmake-rs link-test fixtures

Shallow embedding of the three C source files of the repository:

  * `src/xmakers-repo/projects/bar/bar/bar.h`
  * `src/xmakers-repo/projects/foo/foo/foo.h`
  * `src/tests/packages/sht-shf-shb/src/target.c`

Each header (and the top of `target.c`) computes a per-library visibility
attribute `<LIB>_PUBLIC_API` from the preprocessor flags `<LIB>_STATIC` and
`<LIB>_BUILD` and from the platform test `_WIN32`.  We embed this as a pure
function from a `BuildConfig` record (the three compile-time axes) to a
`VisAttr` value (the closed set of attribute token sequences the sources can
emit).  `target.c` additionally defines the runtime function `target()`,
which calls `bar()`, asserts the result is `456`, and returns `789`; runtime
behaviour is embedded with an `ExecResult` type in which an assertion failure
is the `abort` outcome.

The bodies of `bar()` and `foo()` (their owning `.c` files) are not part of
the sources; they are modelled from the spec where noted.
-/

/-- The platform axis: `_WIN32` defined (Windows-style linker) versus not
defined (attribute-based linker), exactly the `#ifdef _WIN32` test of the
sources. -/
inductive PlatformFamily
  | win32
  | attributeBased
deriving DecidableEq, Repr

/-- The closed set of attribute token sequences that the headers can paste in
front of a declaration: `__declspec(dllexport)`, `__declspec(dllimport)`,
the GNU default-visibility attribute, or nothing at all. -/
inductive VisAttr
  | declspecDllexport
  | declspecDllimport
  | gnuVisibilityDefault
  | emptyAttr
deriving DecidableEq, Repr

/-- The compile-time configuration of one translation unit with respect to one
library `<LIB>`: the platform family, whether `<LIB>_STATIC` is defined and
whether `<LIB>_BUILD` is defined. -/
structure BuildConfig where
  platform : PlatformFamily
  staticDefined : Bool
  buildDefined : Bool
deriving DecidableEq, Repr

/-- `bar.h` lines 4-15: `BAR_DLL_EXPORT` is `__declspec(dllexport)` on
`_WIN32` and the GNU default-visibility attribute otherwise, unless
`BAR_STATIC` is defined, in which case it is empty. -/
def BAR_DLL_EXPORT (c : BuildConfig) : VisAttr :=
  if !c.staticDefined then
    match c.platform with
    | .win32 => .declspecDllexport
    | .attributeBased => .gnuVisibilityDefault
  else .emptyAttr

/-- `bar.h` lines 4-15: `BAR_DLL_IMPORT` is `__declspec(dllimport)` on
`_WIN32` and the GNU default-visibility attribute otherwise, unless
`BAR_STATIC` is defined, in which case it is empty. -/
def BAR_DLL_IMPORT (c : BuildConfig) : VisAttr :=
  if !c.staticDefined then
    match c.platform with
    | .win32 => .declspecDllimport
    | .attributeBased => .gnuVisibilityDefault
  else .emptyAttr

/-- `bar.h` lines 17-21: `BAR_PUBLIC_API` is `BAR_DLL_EXPORT` when
`BAR_BUILD` is defined (owning build) and `BAR_DLL_IMPORT` otherwise
(consuming build). -/
def BAR_PUBLIC_API (c : BuildConfig) : VisAttr :=
  if c.buildDefined then BAR_DLL_EXPORT c else BAR_DLL_IMPORT c

/-- `foo.h` lines 4-15, same pattern as `bar.h` with the `FOO_` flags. -/
def FOO_DLL_EXPORT (c : BuildConfig) : VisAttr :=
  if !c.staticDefined then
    match c.platform with
    | .win32 => .declspecDllexport
    | .attributeBased => .gnuVisibilityDefault
  else .emptyAttr

/-- `foo.h` lines 4-15, same pattern as `bar.h` with the `FOO_` flags. -/
def FOO_DLL_IMPORT (c : BuildConfig) : VisAttr :=
  if !c.staticDefined then
    match c.platform with
    | .win32 => .declspecDllimport
    | .attributeBased => .gnuVisibilityDefault
  else .emptyAttr

/-- `foo.h` lines 17-21: `FOO_PUBLIC_API` selects export or import from
`FOO_BUILD`. -/
def FOO_PUBLIC_API (c : BuildConfig) : VisAttr :=
  if c.buildDefined then FOO_DLL_EXPORT c else FOO_DLL_IMPORT c

/-- `target.c` lines 5-16, same pattern with the `TARGET_` flags. -/
def TARGET_DLL_EXPORT (c : BuildConfig) : VisAttr :=
  if !c.staticDefined then
    match c.platform with
    | .win32 => .declspecDllexport
    | .attributeBased => .gnuVisibilityDefault
  else .emptyAttr

/-- `target.c` lines 5-16, same pattern with the `TARGET_` flags. -/
def TARGET_DLL_IMPORT (c : BuildConfig) : VisAttr :=
  if !c.staticDefined then
    match c.platform with
    | .win32 => .declspecDllimport
    | .attributeBased => .gnuVisibilityDefault
  else .emptyAttr

/-- `target.c` lines 18-22: `TARGET_PUBLIC_API` selects export or import from
`TARGET_BUILD`. -/
def TARGET_PUBLIC_API (c : BuildConfig) : VisAttr :=
  if c.buildDefined then TARGET_DLL_EXPORT c else TARGET_DLL_IMPORT c

/-- The contract table of spec section 4.1, written from the spec's words, to
be compared with the header definitions above: static linkage gives the empty
attribute; otherwise a Windows-style owning build exports, a Windows-style
consuming build imports, and an attribute-based platform emits the shared
default-visibility attribute in both roles. -/
def specPublicApi (c : BuildConfig) : VisAttr :=
  if c.staticDefined then .emptyAttr
  else
    match c.platform, c.buildDefined with
    | .win32, true => .declspecDllexport
    | .win32, false => .declspecDllimport
    | .attributeBased, _ => .gnuVisibilityDefault

example : BAR_PUBLIC_API ⟨.win32, false, true⟩ = .declspecDllexport := by decide
example : BAR_PUBLIC_API ⟨.win32, false, false⟩ = .declspecDllimport := by decide
example : BAR_PUBLIC_API ⟨.attributeBased, false, false⟩ = .gnuVisibilityDefault := by decide
example : BAR_PUBLIC_API ⟨.attributeBased, true, true⟩ = .emptyAttr := by decide

/-! ## Runtime model -/

/-- Outcome of calling one of the public functions: a normal return of an
`int`, or process abort via assertion failure. -/
inductive ExecResult
  | ret (v : Int)
  | abort
deriving DecidableEq, Repr

/-- Modelled from the spec: the owning translation unit of `bar()` (its `.c`
file) is not under `src/`; only the declaration in `bar.h` line 23 is.  Spec
sections 4.2 and 8: the body is a minimal deterministic stub that returns the
fixed sentinel 456. -/
def bar : Int := 456

/-- Modelled from the spec: the owning translation unit of `foo()` is not
under `src/`; only the declaration in `foo.h` line 23 is.  Spec section 4.2:
`foo()` returns its own fixed sentinel, independently, with no dependency on
`bar`; the spec does not document the numeric value, so the body is embedded
parametrically in the sentinel it returns. -/
def fooBody (sentinel : Int) : Int := sentinel

/-- `target.c` lines 26-30, as a function of the value `b` produced by the
internal call to `bar()`: `assert(b == 456)` aborts the process when the
condition fails, otherwise execution falls through to `return 789`. -/
def targetBody (b : Int) : ExecResult :=
  if b = 456 then .ret 789 else .abort

/-- `target()` as linked in the repository: its internal call resolves to the
`bar` above. -/
def target : ExecResult := targetBody bar

/-! ### NDEBUG and the liveness of the assertion (`target.c` lines 1-2) -/

/-- Semantics of `#include <assert.h>`: the `assert` check is compiled in
(live) exactly when `NDEBUG` is not defined at the point of inclusion. -/
def assertLive (ndebugDefined : Bool) : Bool := !ndebugDefined

/-- `target.c` line 1 is `#undef NDEBUG`: whatever the build configuration
initially defined, `NDEBUG` is undefined when line 2 includes `assert.h`. -/
def ndebugInTargetC (ndebugInitial : Bool) : Bool := false

/-- The compiled body of `target()` in a build whose configuration initially
set `NDEBUG` as given: the assertion participates only when it is live. -/
def targetBodyCompiled (ndebugInitial : Bool) (b : Int) : ExecResult :=
  if assertLive (ndebugInTargetC ndebugInitial) && !(b == 456) then .abort
  else .ret 789

/-! ### Observable results under a build configuration

The function bodies in the sources never mention `<LIB>_STATIC`,
`<LIB>_BUILD` or `_WIN32`: those flags only select the visibility attribute
pasted onto the declarations.  The observable result of a call in a process
built under a given configuration is therefore the configuration-independent
value of the body. -/

/-- Observable return value of `bar()` in a process whose `bar` translation
units were built under configuration `c`; the body reads nothing from `c`. -/
def barObserved (c : BuildConfig) : Int := bar

/-- Which other libraries are linked into the process image alongside `foo`.
The body of `foo()` references neither `bar` nor `target`. -/
structure LinkSet where
  barLinked : Bool
  targetLinked : Bool
deriving DecidableEq, Repr

/-- Observable return value of `foo()` (with sentinel `s`) in a process with
link set `l`; the body references no other library. -/
def fooObserved (s : Int) (l : LinkSet) : Int := fooBody s

/-- Observable result of `target()` when `target`'s translation units are
built under `cTarget` and `bar`'s under `cBar`; both bodies read nothing from
the configurations. -/
def targetObserved (cTarget cBar : BuildConfig) : ExecResult :=
  targetBody (barObserved cBar)

/-! ### Call traces within one process lifetime -/

/-- The three public functions of the fixture set. -/
inductive PublicFn
  | fnBar
  | fnFoo
  | fnTarget
deriving DecidableEq, Repr

/-- One call to a public function (with `s` the sentinel of `foo`).  None of
the three bodies reads or writes any global state, so a call is a pure value,
not a state transformer. -/
def invoke (s : Int) : PublicFn → ExecResult
  | .fnBar => .ret bar
  | .fnFoo => .ret (fooBody s)
  | .fnTarget => target

/-- The results of a sequence of calls within one process lifetime. -/
def runCalls (s : Int) (fs : List PublicFn) : List ExecResult :=
  fs.map (invoke s)

example : target = .ret 789 := by decide
example : targetBody 457 = .abort := by decide
example : targetBodyCompiled true 457 = .abort := by decide
example : runCalls 0 [.fnBar, .fnTarget, .fnBar] = [.ret 456, .ret 789, .ret 456] := by decide

/-! ### Header inclusion and include guards (`bar.h` / `foo.h` lines 1-2, 24) -/

/-- One item a header emits into the translation unit: a definition of one of
the three visibility objects, or the decorated function declaration. -/
inductive HeaderItem
  | defineDllExport (owner : PublicFn) (value : VisAttr)
  | defineDllImport (owner : PublicFn) (value : VisAttr)
  | definePublicApi (owner : PublicFn) (value : VisAttr)
  | declFun (f : PublicFn) (api : VisAttr)
deriving DecidableEq, Repr

/-- Preprocessing state of one translation unit: whether the two include
guards `XMAKERS_BAR_H` and `XMAKERS_FOO_H` are defined, and the sequence of
items emitted so far. -/
structure TUState where
  barGuard : Bool
  fooGuard : Bool
  items : List HeaderItem
deriving DecidableEq, Repr

/-- Everything `bar.h` emits between its guard lines when processed under
configuration `c`: the three macro definitions of lines 4-21 and the
declaration of line 23. -/
def barHeaderContent (c : BuildConfig) : List HeaderItem :=
  [ .defineDllExport .fnBar (BAR_DLL_EXPORT c),
    .defineDllImport .fnBar (BAR_DLL_IMPORT c),
    .definePublicApi .fnBar (BAR_PUBLIC_API c),
    .declFun .fnBar (BAR_PUBLIC_API c) ]

/-- Everything `foo.h` emits between its guard lines when processed under
configuration `c`. -/
def fooHeaderContent (c : BuildConfig) : List HeaderItem :=
  [ .defineDllExport .fnFoo (FOO_DLL_EXPORT c),
    .defineDllImport .fnFoo (FOO_DLL_IMPORT c),
    .definePublicApi .fnFoo (FOO_PUBLIC_API c),
    .declFun .fnFoo (FOO_PUBLIC_API c) ]

/-- The effect of `#include <bar/bar.h>` on the translation unit: `bar.h`
line 1 tests `#ifndef XMAKERS_BAR_H`; when the guard is already defined the
whole file is skipped, otherwise line 2 defines the guard and the body is
emitted. -/
def includeBarH (c : BuildConfig) (s : TUState) : TUState :=
  if s.barGuard then s
  else { s with barGuard := true, items := s.items ++ barHeaderContent c }

/-- The effect of including `foo.h` on the translation unit, with the guard
`XMAKERS_FOO_H`. -/
def includeFooH (c : BuildConfig) (s : TUState) : TUState :=
  if s.fooGuard then s
  else { s with fooGuard := true, items := s.items ++ fooHeaderContent c }

/-- A fresh translation unit: neither guard defined, nothing emitted. -/
def freshTU : TUState := ⟨false, false, []⟩

example :
    includeBarH ⟨.win32, false, false⟩ (includeBarH ⟨.win32, false, false⟩ freshTU)
      = includeBarH ⟨.win32, false, false⟩ freshTU := by decide

/-! ## Helper lemmas -/

/-- A second inclusion of `bar.h` in the same translation unit is a no-op:
the first one defined `XMAKERS_BAR_H`. -/
theorem includeBarH_idem (c : BuildConfig) (s : TUState) :
    includeBarH c (includeBarH c s) = includeBarH c s := by
  by_cases h : s.barGuard = true <;> simp [includeBarH, h]

/-- A second inclusion of `foo.h` in the same translation unit is a no-op:
the first one defined `XMAKERS_FOO_H`. -/
theorem includeFooH_idem (c : BuildConfig) (s : TUState) :
    includeFooH c (includeFooH c s) = includeFooH c s := by
  by_cases h : s.fooGuard = true <;> simp [includeFooH, h]

/-! ## Claims -/

/-- C1: for every library in {bar, foo, target} and every combination of
platform family, linkage mode (`<LIB>_STATIC`) and build role
(`<LIB>_BUILD`), the computed `<LIB>_PUBLIC_API` attribute equals the
section 4.1 contract table: empty under static linkage, dllexport for
Windows-style dynamic owning builds, dllimport for Windows-style dynamic
consuming builds, and the GNU default-visibility attribute for
attribute-based dynamic builds in both roles. -/
theorem publicApi_matches_spec_table (c : BuildConfig) :
    BAR_PUBLIC_API c = specPublicApi c ∧ FOO_PUBLIC_API c = specPublicApi c ∧
      TARGET_PUBLIC_API c = specPublicApi c := by
  obtain ⟨p, st, bd⟩ := c
  cases p <;> cases st <;> cases bd <;> exact ⟨rfl, rfl, rfl⟩

/-- C2: for every value `b` returned by the internal call to `bar()`,
`target()` returns 789 exactly when `b = 456`, and aborts via the assertion
for every other `b`. -/
theorem target_789_iff_bar_456 (b : Int) :
    (targetBody b = .ret 789 ↔ b = 456) ∧ (b ≠ 456 → targetBody b = .abort) := by
  refine ⟨⟨fun h => ?_, fun hb => by simp [targetBody, hb]⟩,
    fun hb => by simp [targetBody, hb]⟩
  by_contra hb
  simp [targetBody, hb] at h

/-- Witness for C2 at the concrete inputs 456 and 457. -/
theorem target_789_iff_bar_456_witness :
    targetBody 456 = .ret 789 ∧ targetBody 457 = .abort :=
  ⟨(target_789_iff_bar_456 456).1.mpr rfl,
    (target_789_iff_bar_456 457).2 (by decide)⟩

/-- C3: `bar()` returns exactly 456, deterministically, for every consumer
configuration and at every call site of a trace. -/
theorem bar_returns_456 (c : BuildConfig) (s : Int) :
    barObserved c = 456 ∧ invoke s .fnBar = .ret 456 :=
  ⟨rfl, rfl⟩

/-- C4: linkage-mode transparency: the observable results of `target()` and
of `bar()` under an all-static build (every `*_STATIC` defined) coincide with
those under an all-dynamic build, whatever the platforms and build roles of
the two configurations. -/
theorem linkage_mode_transparent (pS pD : PlatformFamily) (bT bB bT2 bB2 : Bool) :
    targetObserved ⟨pS, true, bT⟩ ⟨pS, true, bB⟩
        = targetObserved ⟨pD, false, bT2⟩ ⟨pD, false, bB2⟩
      ∧ barObserved ⟨pS, true, bB⟩ = barObserved ⟨pD, false, bB2⟩ :=
  ⟨rfl, rfl⟩

/-- C5: `foo()` returns exactly its own sentinel on every invocation, and its
value does not depend on whether `bar` or `target` are linked into the
process. -/
theorem foo_sentinel_link_independent (s : Int) (l l2 : LinkSet) :
    fooObserved s l = s ∧ fooObserved s l = fooObserved s l2 :=
  ⟨rfl, rfl⟩

/-- C6: idempotence with no hidden state: in any call trace within one
process lifetime, two calls to the same public function return identical
values. -/
theorem public_calls_idempotent (s : Int) (fs : List PublicFn)
    (i j : Fin fs.length) (h : fs.get i = fs.get j) :
    (runCalls s fs).get ⟨i.val, by simp only [runCalls, List.length_map]; exact i.isLt⟩
      = (runCalls s fs).get ⟨j.val, by simp only [runCalls, List.length_map]; exact j.isLt⟩ := by
  have h2 : fs[i.val] = fs[j.val] := by
    simpa only [List.get_eq_getElem] using h
  simp only [runCalls, List.get_eq_getElem, List.getElem_map, h2]

/-- Witness for C6: the first and third call of a concrete trace both call
`bar()` and return the same value. -/
theorem public_calls_idempotent_witness :
    (runCalls 0 [PublicFn.fnBar, PublicFn.fnFoo, PublicFn.fnBar]).get ⟨0, by decide⟩
      = (runCalls 0 [PublicFn.fnBar, PublicFn.fnFoo, PublicFn.fnBar]).get ⟨2, by decide⟩ :=
  public_calls_idempotent 0 [PublicFn.fnBar, PublicFn.fnFoo, PublicFn.fnBar]
    ⟨0, by decide⟩ ⟨2, by decide⟩ (by decide)

/-- C7: on attribute-based (non-Windows) platforms with dynamic linkage the
export and import attributes coincide for every library, both being the GNU
default-visibility attribute, in either build role. -/
theorem attribute_platform_symmetric (role : Bool) :
    (BAR_DLL_EXPORT ⟨.attributeBased, false, role⟩
        = BAR_DLL_IMPORT ⟨.attributeBased, false, role⟩
      ∧ BAR_DLL_EXPORT ⟨.attributeBased, false, role⟩ = .gnuVisibilityDefault)
    ∧ (FOO_DLL_EXPORT ⟨.attributeBased, false, role⟩
        = FOO_DLL_IMPORT ⟨.attributeBased, false, role⟩
      ∧ FOO_DLL_EXPORT ⟨.attributeBased, false, role⟩ = .gnuVisibilityDefault)
    ∧ (TARGET_DLL_EXPORT ⟨.attributeBased, false, role⟩
        = TARGET_DLL_IMPORT ⟨.attributeBased, false, role⟩
      ∧ TARGET_DLL_EXPORT ⟨.attributeBased, false, role⟩ = .gnuVisibilityDefault) :=
  ⟨⟨rfl, rfl⟩, ⟨rfl, rfl⟩, ⟨rfl, rfl⟩⟩

/-- C8: the visibility computation is total — it is a function on all of
`BuildConfig` — and for every combination of flags and platform each
`<LIB>_PUBLIC_API` equals one member of the closed set consisting of the
library's export attribute, its import attribute, and the empty attribute. -/
theorem publicApi_total_closed_set (c : BuildConfig) :
    (BAR_PUBLIC_API c = BAR_DLL_EXPORT c ∨ BAR_PUBLIC_API c = BAR_DLL_IMPORT c
      ∨ BAR_PUBLIC_API c = .emptyAttr)
    ∧ (FOO_PUBLIC_API c = FOO_DLL_EXPORT c ∨ FOO_PUBLIC_API c = FOO_DLL_IMPORT c
      ∨ FOO_PUBLIC_API c = .emptyAttr)
    ∧ (TARGET_PUBLIC_API c = TARGET_DLL_EXPORT c
      ∨ TARGET_PUBLIC_API c = TARGET_DLL_IMPORT c
      ∨ TARGET_PUBLIC_API c = .emptyAttr) := by
  obtain ⟨p, st, bd⟩ := c
  cases p <;> cases st <;> cases bd <;> decide

/-- C9: `target.c` line 1 undefines `NDEBUG` before including `assert.h`, so
the assertion in `target()` is live regardless of the build's initial
`NDEBUG` setting, and the compiled body behaves like the assert-live body on
every input. -/
theorem target_assert_always_live (nd : Bool) (b : Int) :
    assertLive (ndebugInTargetC nd) = true ∧ targetBodyCompiled nd b = targetBody b := by
  refine ⟨rfl, ?_⟩
  by_cases hb : b = 456 <;>
    simp [targetBodyCompiled, targetBody, assertLive, ndebugInTargetC, hb]

/-- C10: header inclusion is idempotent: in one translation unit, including
`bar.h` (resp. `foo.h`) `n + 1` times has exactly the effect of including it
once — the include guards `XMAKERS_BAR_H` / `XMAKERS_FOO_H` suppress every
re-emission of the macro definitions and the declaration. -/
theorem header_inclusion_idempotent (c : BuildConfig) (n : Nat) (s : TUState) :
    (includeBarH c)^[n + 1] s = includeBarH c s
      ∧ (includeFooH c)^[n + 1] s = includeFooH c s := by
  induction n generalizing s with
  | zero => exact ⟨rfl, rfl⟩
  | succ n ih =>
    constructor
    · rw [Function.iterate_succ_apply, (ih (includeBarH c s)).1, includeBarH_idem]
    · rw [Function.iterate_succ_apply, (ih (includeFooH c s)).2, includeFooH_idem]
